import Mathlib

/-
Verification of the Concurrency library (periodic task scheduler).

The repository ships as C++ headers: RoutineTimeMonitor.hpp, CyclicalWorker.hpp,
Scheduler.hpp, Thread.hpp, IScheduledWorker.hpp, IScheduler.hpp, ITask.hpp,
ConcurrencyLog.hpp.  The headers declare the classes, their fields and the
operation signatures; the method bodies live in .cpp translation units that are
not part of the source tree, so the behavioural definitions below are modelled
from the specification, faithful to its words, over the field layout declared
in the headers.  Time is modelled as Nat ticks (the clock is monotonic, so
chrono differences are non-negative and unsigned subtraction agrees with Nat
truncated subtraction); uint64 counters are modelled as Nat (a fault counter
incremented once per loop iteration never approaches 2^64 within the abstraction
the spec describes, and the spec calls the counters monotonically
non-decreasing).

The scheduling-policy constants of Thread.hpp are present in full in the
source and are embedded directly from it.
-/

namespace Concurrency

/-- Absolute difference of two naturals, the unsigned distance used by the
fault predicates of the time monitor. -/
def absDiff (a b : Nat) : Nat := if b ≤ a then a - b else b - a

/-- State of RoutineTimeMonitor, fields as declared in
RoutineTimeMonitor.hpp lines 128-145: six timing values, the two expected
values and two deviation tolerances (immutable after construction), two fault
counters, the start-time stamp and the first-loop flag.  Microsecond values
and uint64 counters are modelled as Nat. -/
structure RoutineTimeMonitor where
  durationMax : Nat
  durationMin : Nat
  durationCur : Nat
  intervalMax : Nat
  intervalMin : Nat
  intervalCur : Nat
  durationExpt : Nat
  intervalExpt : Nat
  durationFaultCount : Nat
  intervalFaultCount : Nat
  durationDeviation : Nat
  intervalDeviation : Nat
  startTime : Nat
  firstLoopDone : Bool
deriving Repr, DecidableEq

namespace RoutineTimeMonitor

/-- Modelled from the spec: the RoutineTimeMonitor constructor
(RoutineTimeMonitor.cpp is not in the tree).  The expected duration and
interval are set at construction, the deviations are derived once; the
timing values, fault counters and start stamp begin at zero and the first
loop is not yet done. -/
def init (durationExpt intervalExpt durationDeviation intervalDeviation : Nat) :
    RoutineTimeMonitor :=
  { durationMax := 0, durationMin := 0, durationCur := 0
    intervalMax := 0, intervalMin := 0, intervalCur := 0
    durationExpt := durationExpt, intervalExpt := intervalExpt
    durationFaultCount := 0, intervalFaultCount := 0
    durationDeviation := durationDeviation, intervalDeviation := intervalDeviation
    startTime := 0, firstLoopDone := false }

/-- Modelled from the spec: RoutineTimeMonitor::Start (body not in the tree).
Stamp startTime = now; if the first loop is done, first compute the interval
since the previous start, fold it into the sticky min and max, and count an
interval fault exactly when the sample deviates from the expected interval by
more than the tolerance. -/
def Start (m : RoutineTimeMonitor) (now : Nat) : RoutineTimeMonitor :=
  if m.firstLoopDone then
    let icur := now - m.startTime
    { m with
      intervalCur := icur
      intervalMin := min m.intervalMin icur
      intervalMax := max m.intervalMax icur
      intervalFaultCount :=
        if m.intervalDeviation < absDiff icur m.intervalExpt then
          m.intervalFaultCount + 1
        else m.intervalFaultCount
      startTime := now }
  else
    { m with startTime := now }

/-- Modelled from the spec: RoutineTimeMonitor::Stop (body not in the tree).
Compute the duration since startTime, fold it into the sticky min and max,
count a duration fault exactly when the sample deviates from the expected
duration by more than the tolerance, and mark the first loop done. -/
def Stop (m : RoutineTimeMonitor) (now : Nat) : RoutineTimeMonitor :=
  let dcur := now - m.startTime
  { m with
    durationCur := dcur
    durationMin := min m.durationMin dcur
    durationMax := max m.durationMax dcur
    durationFaultCount :=
      if m.durationDeviation < absDiff dcur m.durationExpt then
        m.durationFaultCount + 1
      else m.durationFaultCount
    firstLoopDone := true }

/-- Modelled from the spec: RoutineTimeMonitor::IsDurationTimeout, the pure
predicate over the most recent duration sample. -/
def IsDurationTimeout (m : RoutineTimeMonitor) : Bool :=
  m.durationDeviation < absDiff m.durationCur m.durationExpt

/-- Modelled from the spec: RoutineTimeMonitor::IsIntervalTimeout, the pure
predicate over the most recent interval sample. -/
def IsIntervalTimeout (m : RoutineTimeMonitor) : Bool :=
  m.intervalDeviation < absDiff m.intervalCur m.intervalExpt

/-- Modelled from the spec: RoutineTimeMonitor::ResetElapsedTiming (body not
in the tree).  When the flag is true, zero the duration min, max and current
values; the fault counts are untouched. -/
def ResetElapsedTiming (m : RoutineTimeMonitor) (reset : Bool) : RoutineTimeMonitor :=
  if reset then
    { m with durationMax := 0, durationMin := 0, durationCur := 0 }
  else m

/-- Modelled from the spec: RoutineTimeMonitor::ResetIntervalTiming (body not
in the tree).  When the flag is true, zero the interval min, max and current
values; the fault counts are untouched. -/
def ResetIntervalTiming (m : RoutineTimeMonitor) (reset : Bool) : RoutineTimeMonitor :=
  if reset then
    { m with intervalMax := 0, intervalMin := 0, intervalCur := 0 }
  else m

/-- Modelled from the spec: RoutineTimeMonitor::IncrementIntervalFaultCount,
declared public at RoutineTimeMonitor.hpp line 101 (body not in the tree).
Bumps the interval fault counter. -/
def IncrementIntervalFaultCount (m : RoutineTimeMonitor) : RoutineTimeMonitor :=
  { m with intervalFaultCount := m.intervalFaultCount + 1 }

end RoutineTimeMonitor

/-- One mutating operation of the monitor, for quantifying over operation
sequences.  The accessors (GetMaxDuration and friends, Is1StLoopDone) are
const and do not change the state, so they are not listed. -/
inductive MonitorOp where
  | start (now : Nat)
  | stop (now : Nat)
  | resetElapsed (reset : Bool)
  | resetInterval (reset : Bool)
  | incrementIntervalFault
deriving Repr, DecidableEq

/-- Apply one monitor operation to a monitor state. -/
def applyOp (op : MonitorOp) (m : RoutineTimeMonitor) : RoutineTimeMonitor :=
  match op with
  | .start now => m.Start now
  | .stop now => m.Stop now
  | .resetElapsed b => m.ResetElapsedTiming b
  | .resetInterval b => m.ResetIntervalTiming b
  | .incrementIntervalFault => m.IncrementIntervalFaultCount

/-- Apply a sequence of monitor operations, left to right. -/
def applyOps (ops : List MonitorOp) (m : RoutineTimeMonitor) : RoutineTimeMonitor :=
  ops.foldl (fun s op => applyOp op s) m

/-- A monitor state is reachable when it arises from some construction by a
sequence of operations. -/
inductive Reachable : RoutineTimeMonitor → Prop
  | init (de ie dd id : Nat) : Reachable (RoutineTimeMonitor.init de ie dd id)
  | step (m : RoutineTimeMonitor) (op : MonitorOp) :
      Reachable m → Reachable (applyOp op m)

/-- The ordering invariant of the monitor: each current sample lies between
the sticky minimum and maximum, for duration and for interval. -/
def timingOrdered (m : RoutineTimeMonitor) : Prop :=
  m.durationMin ≤ m.durationCur ∧ m.durationCur ≤ m.durationMax ∧
  m.intervalMin ≤ m.intervalCur ∧ m.intervalCur ≤ m.intervalMax

/-- State of CyclicalWorker, fields as declared in CyclicalWorker.hpp lines
51-65: host worker pointer (kept abstract), the period, the optional duration
ceiling (0 means unbounded), execution-error counter, terminated flag, the
time monitor, the scheduled-iteration counter, the instant of the previous
scheduled start, the started flag and the periodic-log counter.  The spawned
thread is modelled by the priority it was created with, none before
ScheduleWork spawns it.  scheduleTime records the activation instant used by
the duration ceiling of loop step 6. -/
structure WorkerState where
  interval : Nat
  durationMax : Nat
  executionErrorsCnt : Nat
  terminated : Bool
  timeMonitor : RoutineTimeMonitor
  scheduledCount : Nat
  last : Nat
  started : Bool
  msgCnt : Nat
  threadPriority : Int
  spawnedPriority : Option Int
  scheduleTime : Nat
deriving Repr, DecidableEq

/-- The periodic-summary log interval, CyclicalWorker.hpp line 49. -/
def DURATION_MSG_INTERVAL : Nat := 60 * 1

/-- Observable interactions of one loop iteration of the worker with the
outside world: the per-iteration timeout notification to the task, the
Warning log on a task execution error, and the periodic Info summary log. -/
inductive WorkerEvent where
  | notifyTimeout (isTimeout : Bool)
  | warnLog
  | infoLog
deriving Repr, DecidableEq

/-- Whether an event is the duration-timeout notification to the task. -/
def WorkerEvent.isNotify : WorkerEvent → Bool
  | .notifyTimeout _ => true
  | _ => false

namespace CyclicalWorker

/-- Modelled from the spec: CyclicalWorker::GetRequiredWaitTime (body not in
the tree).  The target instant is last plus the period; when it is still in
the future the wait is the remaining slack, otherwise the task overran and
the wait is zero. -/
def GetRequiredWaitTime (last interval now : Nat) : Nat :=
  if now < last + interval then last + interval - now else 0

/-- Modelled from the spec: CyclicalWorker::ScheduleWork (body not in the
tree).  Idempotent activation: a no-op when already started, otherwise mark
started, stamp last with the current instant and spawn the worker thread
with the configured priority. -/
def ScheduleWork (w : WorkerState) (now : Nat) : WorkerState :=
  if w.started then w
  else
    { w with started := true, last := now, scheduleTime := now
             spawnedPriority := some w.threadPriority }

/-- Result of one iteration of the worker's main loop: the successor state,
the events emitted during the iteration, and the wait performed at the end
(none when the iteration exited through the duration ceiling of step 6). -/
structure IterationResult where
  state : WorkerState
  events : List WorkerEvent
  waited : Option Nat
deriving Repr, DecidableEq

/-- Modelled from the spec: one iteration of CyclicalWorker::Run (body not
in the tree), spec section 4.3.  Start the monitor at nowStart, count the
iteration, run the task once (runError tells whether it raised, runDuration
how long it took), stop the monitor, notify the task of the duration-timeout
status of this very sample, then either exit through the duration ceiling or
wait the required slack, advance last by the period, and emit the periodic
summary every DURATION_MSG_INTERVAL iterations. -/
def runIteration (w : WorkerState) (nowStart runDuration : Nat)
    (runError : Bool) : IterationResult :=
  let m1 := w.timeMonitor.Start nowStart
  let nowStop := nowStart + runDuration
  let m2 := m1.Stop nowStop
  let errEvents : List WorkerEvent := if runError then [.warnLog] else []
  let notify : WorkerEvent := .notifyTimeout m2.IsDurationTimeout
  let w1 : WorkerState :=
    { w with
      timeMonitor := m2
      scheduledCount := w.scheduledCount + 1
      executionErrorsCnt :=
        if runError then w.executionErrorsCnt + 1 else w.executionErrorsCnt }
  if w.durationMax ≠ 0 ∧ w.durationMax < nowStop - w.scheduleTime then
    { state := { w1 with terminated := true }
      events := errEvents ++ [notify]
      waited := none }
  else
    let wait := GetRequiredWaitTime w.last w.interval nowStop
    let msg := w.msgCnt + 1
    let summary : List WorkerEvent :=
      if msg % DURATION_MSG_INTERVAL = 0 then [.infoLog] else []
    { state := { w1 with last := w.last + w.interval, msgCnt := msg }
      events := errEvents ++ [notify] ++ summary
      waited := some wait }

end CyclicalWorker

/-- Parameters of one registered worker as the scheduler's Attach stores
them: period, thread priority and optional duration ceiling. -/
structure WorkerSpec where
  period : Nat
  priority : Int
  duration : Nat
deriving Repr, DecidableEq

/-- State of Scheduler, fields as declared in Scheduler.hpp lines 115-124:
the worker list, the configured maximum worker count, and the lifecycle
flags. -/
structure SchedulerState where
  workers : List WorkerSpec
  maxWorkers : Nat
  active : Bool
  terminated : Bool
deriving Repr, DecidableEq

/-- Why a registration was refused: the worker limit was reached, or the
requested period is zero. -/
inductive AttachError where
  | limitExceeded
  | zeroPeriod
deriving Repr, DecidableEq

namespace Scheduler

/-- Modelled from the spec: Scheduler::Attach (body not in the tree), spec
sections 4.4 and 7.  Registration is refused, surfacing an error to the
caller, when the worker list already holds the configured maximum or when
the period is zero; otherwise the new worker is appended to the list. -/
def Attach (s : SchedulerState) (period : Nat) (priority : Int)
    (duration : Nat) : Except AttachError SchedulerState :=
  if s.maxWorkers ≤ s.workers.length then .error .limitExceeded
  else if period = 0 then .error .zeroPeriod
  else .ok { s with workers := s.workers ++ [⟨period, priority, duration⟩] }

/-- The scheduler state the caller observes after an Attach call: the new
state on success, the old state when the registration was refused. -/
def attachResultState (s : SchedulerState) (period : Nat) (priority : Int)
    (duration : Nat) : SchedulerState :=
  match Attach s period priority duration with
  | .ok s2 => s2
  | .error _ => s

end Scheduler

/-- The Win32 scheduling-policy constants of Thread.hpp lines 37-40:
THREAD_SCHED_NRT_TS is 0, THREAD_SCHED_RT_FIFO is 1, THREAD_SCHED_RT_RR is
2, and THREAD_SCHED_DEFAULT is THREAD_SCHED_NRT_TS. -/
def THREAD_SCHED_NRT_TS_Win32 : Nat := 0

def THREAD_SCHED_RT_FIFO_Win32 : Nat := 1

def THREAD_SCHED_RT_RR_Win32 : Nat := 2

def THREAD_SCHED_DEFAULT_Win32 : Nat := THREAD_SCHED_NRT_TS_Win32

/-- The three POSIX scheduling policies the header maps onto, kept abstract
because their numeric values come from the platform sched.h; they are
pairwise distinct policies on every POSIX platform. -/
inductive PosixSchedPolicy where
  | SCHED_OTHER
  | SCHED_FIFO
  | SCHED_RR
deriving Repr, DecidableEq

/-- Thread.hpp line 58: THREAD_SCHED_NRT_TS is SCHED_OTHER on POSIX. -/
def THREAD_SCHED_NRT_TS_Posix : PosixSchedPolicy := .SCHED_OTHER

/-- Thread.hpp line 57: THREAD_SCHED_RT_FIFO is SCHED_FIFO on POSIX. -/
def THREAD_SCHED_RT_FIFO_Posix : PosixSchedPolicy := .SCHED_FIFO

/-- Thread.hpp line 56: THREAD_SCHED_RT_RR is SCHED_RR on POSIX. -/
def THREAD_SCHED_RT_RR_Posix : PosixSchedPolicy := .SCHED_RR

/-- Thread.hpp line 59: THREAD_SCHED_DEFAULT is SCHED_RR on POSIX. -/
def THREAD_SCHED_DEFAULT_Posix : PosixSchedPolicy := .SCHED_RR

/-- The signed slack before the next scheduled instant: target minus the
clock reading, where the target is last plus the period. -/
def slack (last interval now : Nat) : Int :=
  (last : Int) + (interval : Int) - (now : Int)

/-- Whether an Attach call was refused. -/
def attachFailed (r : Except AttachError SchedulerState) : Bool :=
  match r with
  | .error _ => true
  | .ok _ => false

/-- A concrete monitor used to instantiate the universally quantified
theorems: constructed with expected duration and interval 10 and deviations
2, then driven through one full iteration (Start at 1, Stop at 5), so its
first loop is done. -/
def monitorSample : RoutineTimeMonitor :=
  applyOp (.stop 5) (applyOp (.start 1) (RoutineTimeMonitor.init 10 10 2 2))

/-- A concrete freshly constructed monitor whose first loop is not done. -/
def monitorFresh : RoutineTimeMonitor := RoutineTimeMonitor.init 10 10 2 2

/-- A concrete inactive worker used to instantiate the worker theorems:
period 5, no duration ceiling, not started, last stamped at 10. -/
def workerSample : WorkerState :=
  { interval := 5, durationMax := 0, executionErrorsCnt := 0
    terminated := false, timeMonitor := RoutineTimeMonitor.init 5000 5000 500 500
    scheduledCount := 0, last := 10, started := false, msgCnt := 0
    threadPriority := 30, spawnedPriority := none, scheduleTime := 0 }

/-- A concrete already-started worker. -/
def workerStarted : WorkerState :=
  { workerSample with started := true, spawnedPriority := some 30 }

/-- A concrete scheduler that already holds as many workers as its
configured maximum of one. -/
def schedulerFull : SchedulerState :=
  { workers := [⟨5, 30, 0⟩], maxWorkers := 1, active := false
    terminated := false }

theorem timingOrdered_init (de ie dd id : Nat) :
    timingOrdered (RoutineTimeMonitor.init de ie dd id) := by
  simp [timingOrdered, RoutineTimeMonitor.init]

theorem timingOrdered_Start (m : RoutineTimeMonitor) (now : Nat)
    (h : timingOrdered m) : timingOrdered (m.Start now) := by
  obtain ⟨h1, h2, h3, h4⟩ := h
  unfold timingOrdered RoutineTimeMonitor.Start
  by_cases hf : m.firstLoopDone = true
  · rw [if_pos hf]
    exact ⟨h1, h2, min_le_right _ _, le_max_right _ _⟩
  · rw [if_neg hf]
    exact ⟨h1, h2, h3, h4⟩

theorem timingOrdered_Stop (m : RoutineTimeMonitor) (now : Nat)
    (h : timingOrdered m) : timingOrdered (m.Stop now) := by
  obtain ⟨h1, h2, h3, h4⟩ := h
  unfold timingOrdered RoutineTimeMonitor.Stop
  exact ⟨min_le_right _ _, le_max_right _ _, h3, h4⟩

theorem timingOrdered_ResetElapsed (m : RoutineTimeMonitor) (b : Bool)
    (h : timingOrdered m) : timingOrdered (m.ResetElapsedTiming b) := by
  obtain ⟨h1, h2, h3, h4⟩ := h
  unfold timingOrdered RoutineTimeMonitor.ResetElapsedTiming
  cases b
  · exact ⟨h1, h2, h3, h4⟩
  · exact ⟨Nat.le_refl 0, Nat.zero_le _, h3, h4⟩

theorem timingOrdered_ResetInterval (m : RoutineTimeMonitor) (b : Bool)
    (h : timingOrdered m) : timingOrdered (m.ResetIntervalTiming b) := by
  obtain ⟨h1, h2, h3, h4⟩ := h
  unfold timingOrdered RoutineTimeMonitor.ResetIntervalTiming
  cases b
  · exact ⟨h1, h2, h3, h4⟩
  · exact ⟨h1, h2, Nat.le_refl 0, Nat.zero_le _⟩

theorem timingOrdered_Increment (m : RoutineTimeMonitor)
    (h : timingOrdered m) : timingOrdered m.IncrementIntervalFaultCount := by
  obtain ⟨h1, h2, h3, h4⟩ := h
  exact ⟨h1, h2, h3, h4⟩

theorem timingOrdered_applyOp (m : RoutineTimeMonitor) (op : MonitorOp)
    (h : timingOrdered m) : timingOrdered (applyOp op m) := by
  cases op with
  | start now => exact timingOrdered_Start m now h
  | stop now => exact timingOrdered_Stop m now h
  | resetElapsed b => exact timingOrdered_ResetElapsed m b h
  | resetInterval b => exact timingOrdered_ResetInterval m b h
  | incrementIntervalFault => exact timingOrdered_Increment m h

theorem timingOrdered_of_reachable (m : RoutineTimeMonitor)
    (h : Reachable m) : timingOrdered m := by
  induction h with
  | init de ie dd id => exact timingOrdered_init de ie dd id
  | step m op _ ih => exact timingOrdered_applyOp m op ih

theorem faultCounts_mono_applyOp (op : MonitorOp) (m : RoutineTimeMonitor) :
    m.durationFaultCount ≤ (applyOp op m).durationFaultCount ∧
    m.intervalFaultCount ≤ (applyOp op m).intervalFaultCount := by
  cases op with
  | start now =>
      show m.durationFaultCount ≤ (m.Start now).durationFaultCount ∧
        m.intervalFaultCount ≤ (m.Start now).intervalFaultCount
      simp only [RoutineTimeMonitor.Start]
      split_ifs <;> simp
  | stop now =>
      show m.durationFaultCount ≤ (m.Stop now).durationFaultCount ∧
        m.intervalFaultCount ≤ (m.Stop now).intervalFaultCount
      simp only [RoutineTimeMonitor.Stop]
      split_ifs <;> simp
  | resetElapsed b =>
      cases b
      · exact ⟨Nat.le_refl _, Nat.le_refl _⟩
      · exact ⟨Nat.le_refl _, Nat.le_refl _⟩
  | resetInterval b =>
      cases b
      · exact ⟨Nat.le_refl _, Nat.le_refl _⟩
      · exact ⟨Nat.le_refl _, Nat.le_refl _⟩
  | incrementIntervalFault =>
      exact ⟨Nat.le_refl _, Nat.le_succ _⟩

theorem faultCounts_mono_applyOps (ops : List MonitorOp) (m : RoutineTimeMonitor) :
    m.durationFaultCount ≤ (applyOps ops m).durationFaultCount ∧
    m.intervalFaultCount ≤ (applyOps ops m).intervalFaultCount := by
  induction ops generalizing m with
  | nil => exact ⟨Nat.le_refl _, Nat.le_refl _⟩
  | cons op ops ih =>
      have h1 := faultCounts_mono_applyOp op m
      have h2 := ih (applyOp op m)
      exact ⟨Nat.le_trans h1.1 h2.1, Nat.le_trans h1.2 h2.2⟩

/-- C1: a call to Start stamps startTime with the clock reading; when the
first loop is done it also records the interval since the previous start,
folds it into the sticky interval minimum and maximum, and increments the
interval fault counter exactly when the sample deviates from the expected
interval by more than the tolerance, while before the first loop is done it
never increments the interval fault counter; a call to Stop records the
duration since startTime, folds it into the sticky duration minimum and
maximum, increments the duration fault counter exactly when the sample
deviates from the expected duration by more than the tolerance, and marks
the first loop done. -/
theorem C1_monitor_start_stop (m : RoutineTimeMonitor) (now : Nat) :
    (m.Start now).startTime = now ∧
    (m.firstLoopDone = true →
      (m.Start now).intervalCur = now - m.startTime ∧
      (m.Start now).intervalMin = min m.intervalMin (now - m.startTime) ∧
      (m.Start now).intervalMax = max m.intervalMax (now - m.startTime) ∧
      (m.intervalDeviation < absDiff (now - m.startTime) m.intervalExpt →
        (m.Start now).intervalFaultCount = m.intervalFaultCount + 1) ∧
      (¬ m.intervalDeviation < absDiff (now - m.startTime) m.intervalExpt →
        (m.Start now).intervalFaultCount = m.intervalFaultCount)) ∧
    (m.firstLoopDone = false →
      (m.Start now).intervalFaultCount = m.intervalFaultCount) ∧
    (m.Stop now).durationCur = now - m.startTime ∧
    (m.Stop now).durationMin = min m.durationMin (now - m.startTime) ∧
    (m.Stop now).durationMax = max m.durationMax (now - m.startTime) ∧
    (m.durationDeviation < absDiff (now - m.startTime) m.durationExpt →
      (m.Stop now).durationFaultCount = m.durationFaultCount + 1) ∧
    (¬ m.durationDeviation < absDiff (now - m.startTime) m.durationExpt →
      (m.Stop now).durationFaultCount = m.durationFaultCount) ∧
    (m.Stop now).firstLoopDone = true := by
  unfold RoutineTimeMonitor.Start RoutineTimeMonitor.Stop
  by_cases hf : m.firstLoopDone = true
  · rw [if_pos hf]
    refine ⟨rfl, fun _ => ⟨rfl, rfl, rfl, fun hc => ?_, fun hc => ?_⟩,
      fun hf2 => absurd hf (by rw [hf2]; exact Bool.false_ne_true),
      rfl, rfl, rfl, fun hc => ?_, fun hc => ?_, rfl⟩
    · show (if m.intervalDeviation < absDiff (now - m.startTime) m.intervalExpt
          then m.intervalFaultCount + 1 else m.intervalFaultCount) = m.intervalFaultCount + 1
      rw [if_pos hc]
    · show (if m.intervalDeviation < absDiff (now - m.startTime) m.intervalExpt
          then m.intervalFaultCount + 1 else m.intervalFaultCount) = m.intervalFaultCount
      rw [if_neg hc]
    · show (if m.durationDeviation < absDiff (now - m.startTime) m.durationExpt
          then m.durationFaultCount + 1 else m.durationFaultCount) = m.durationFaultCount + 1
      rw [if_pos hc]
    · show (if m.durationDeviation < absDiff (now - m.startTime) m.durationExpt
          then m.durationFaultCount + 1 else m.durationFaultCount) = m.durationFaultCount
      rw [if_neg hc]
  · rw [if_neg hf]
    refine ⟨rfl, fun hf2 => absurd hf2 hf, fun _ => rfl,
      rfl, rfl, rfl, fun hc => ?_, fun hc => ?_, rfl⟩
    · show (if m.durationDeviation < absDiff (now - m.startTime) m.durationExpt
          then m.durationFaultCount + 1 else m.durationFaultCount) = m.durationFaultCount + 1
      rw [if_pos hc]
    · show (if m.durationDeviation < absDiff (now - m.startTime) m.durationExpt
          then m.durationFaultCount + 1 else m.durationFaultCount) = m.durationFaultCount
      rw [if_neg hc]

/-- C1 witness: the Start and Stop characterisation evaluated on the
concrete sample monitor at clock reading 20 (interval sample 19 deviates
from the expected 10 by more than 2, so the fault counter is bumped) and on
a fresh monitor at clock reading 3 (first loop not done, counter kept). -/
theorem C1_monitor_start_stop_witness :
    (monitorSample.Start 20).startTime = 20 ∧
    (monitorSample.Start 20).intervalCur = 20 - monitorSample.startTime ∧
    (monitorSample.Start 20).intervalFaultCount =
      monitorSample.intervalFaultCount + 1 ∧
    (monitorFresh.Start 3).intervalFaultCount = monitorFresh.intervalFaultCount ∧
    (monitorSample.Stop 20).durationCur = 20 - monitorSample.startTime ∧
    (monitorSample.Stop 20).durationFaultCount =
      monitorSample.durationFaultCount + 1 ∧
    (monitorSample.Stop 20).firstLoopDone = true := by
  have h := C1_monitor_start_stop monitorSample 20
  have h0 := C1_monitor_start_stop monitorFresh 3
  obtain ⟨a1, a2, a3, a4, a5, a6, a7, a8, a9⟩ := h
  exact ⟨a1, (a2 (by decide)).1, ((a2 (by decide)).2.2.2.1 (by decide)),
    h0.2.2.1 (by decide), a4, a7 (by decide), a9⟩

/-- C3: in every reachable monitor state whose first loop is done, the
current duration lies between the sticky duration minimum and maximum and
the current interval lies between the sticky interval minimum and maximum,
and every monitor operation preserves this ordering invariant. -/
theorem C3_ordering_invariant (m : RoutineTimeMonitor) (op : MonitorOp)
    (h : Reachable m) :
    (m.firstLoopDone = true →
      m.durationMin ≤ m.durationCur ∧ m.durationCur ≤ m.durationMax ∧
      m.intervalMin ≤ m.intervalCur ∧ m.intervalCur ≤ m.intervalMax) ∧
    (timingOrdered m → timingOrdered (applyOp op m)) :=
  ⟨fun _ => timingOrdered_of_reachable m h,
   fun ht => timingOrdered_applyOp m op ht⟩

/-- C3 witness: the ordering invariant evaluated on the concrete sample
monitor, which is reachable by construction followed by Start at 1 and Stop
at 5 and has its first loop done, together with preservation under the
fault-counter increment operation. -/
theorem C3_ordering_invariant_witness :
    (monitorSample.durationMin ≤ monitorSample.durationCur ∧
      monitorSample.durationCur ≤ monitorSample.durationMax ∧
      monitorSample.intervalMin ≤ monitorSample.intervalCur ∧
      monitorSample.intervalCur ≤ monitorSample.intervalMax) ∧
    timingOrdered (applyOp .incrementIntervalFault monitorSample) := by
  have hr : Reachable monitorSample :=
    Reachable.step _ (.stop 5)
      (Reachable.step _ (.start 1) (Reachable.init 10 10 2 2))
  have h := C3_ordering_invariant monitorSample .incrementIntervalFault hr
  exact ⟨h.1 (by decide), h.2 (h.1 (by decide))⟩

/-- C4: along every sequence of monitor operations neither fault counter
ever decreases, and resetting the elapsed or the interval timing zeroes the
corresponding min, max and current values while leaving both fault counters
unchanged. -/
theorem C4_fault_counters_monotone (ops : List MonitorOp)
    (m : RoutineTimeMonitor) :
    m.durationFaultCount ≤ (applyOps ops m).durationFaultCount ∧
    m.intervalFaultCount ≤ (applyOps ops m).intervalFaultCount ∧
    (m.ResetElapsedTiming true).durationFaultCount = m.durationFaultCount ∧
    (m.ResetElapsedTiming true).intervalFaultCount = m.intervalFaultCount ∧
    (m.ResetElapsedTiming true).durationMin = 0 ∧
    (m.ResetElapsedTiming true).durationMax = 0 ∧
    (m.ResetElapsedTiming true).durationCur = 0 ∧
    (m.ResetIntervalTiming true).durationFaultCount = m.durationFaultCount ∧
    (m.ResetIntervalTiming true).intervalFaultCount = m.intervalFaultCount ∧
    (m.ResetIntervalTiming true).intervalMin = 0 ∧
    (m.ResetIntervalTiming true).intervalMax = 0 ∧
    (m.ResetIntervalTiming true).intervalCur = 0 :=
  ⟨(faultCounts_mono_applyOps ops m).1, (faultCounts_mono_applyOps ops m).2,
   rfl, rfl, rfl, rfl, rfl, rfl, rfl, rfl, rfl, rfl⟩

/-- C10: IncrementIntervalFaultCount, publicly declared in the monitor
header, increases the interval fault counter by exactly one and leaves every
other monitor field unchanged. -/
theorem C10_increment_interval_fault_frame (m : RoutineTimeMonitor) :
    m.IncrementIntervalFaultCount.intervalFaultCount =
      m.intervalFaultCount + 1 ∧
    m.IncrementIntervalFaultCount.durationMax = m.durationMax ∧
    m.IncrementIntervalFaultCount.durationMin = m.durationMin ∧
    m.IncrementIntervalFaultCount.durationCur = m.durationCur ∧
    m.IncrementIntervalFaultCount.intervalMax = m.intervalMax ∧
    m.IncrementIntervalFaultCount.intervalMin = m.intervalMin ∧
    m.IncrementIntervalFaultCount.intervalCur = m.intervalCur ∧
    m.IncrementIntervalFaultCount.durationExpt = m.durationExpt ∧
    m.IncrementIntervalFaultCount.intervalExpt = m.intervalExpt ∧
    m.IncrementIntervalFaultCount.durationFaultCount = m.durationFaultCount ∧
    m.IncrementIntervalFaultCount.durationDeviation = m.durationDeviation ∧
    m.IncrementIntervalFaultCount.intervalDeviation = m.intervalDeviation ∧
    m.IncrementIntervalFaultCount.startTime = m.startTime ∧
    m.IncrementIntervalFaultCount.firstLoopDone = m.firstLoopDone :=
  ⟨rfl, rfl, rfl, rfl, rfl, rfl, rfl, rfl, rfl, rfl, rfl, rfl, rfl, rfl⟩

/-- C2: in every iteration that reaches the wait step, the wait is the slack
between the clock and the target instant last plus period when that slack is
positive and zero otherwise, and last is afterwards advanced to last plus
period rather than to the clock reading, for every value of last, the period
and the clock. -/
theorem C2_required_wait (w : WorkerState) (nowStart runDuration : Nat)
    (runError : Bool)
    (hcap : ¬ (w.durationMax ≠ 0 ∧
      w.durationMax < nowStart + runDuration - w.scheduleTime)) :
    (0 < slack w.last w.interval (nowStart + runDuration) →
      (CyclicalWorker.runIteration w nowStart runDuration runError).waited =
        some (slack w.last w.interval (nowStart + runDuration)).toNat) ∧
    (slack w.last w.interval (nowStart + runDuration) ≤ 0 →
      (CyclicalWorker.runIteration w nowStart runDuration runError).waited =
        some 0) ∧
    (CyclicalWorker.runIteration w nowStart runDuration runError).state.last =
      w.last + w.interval := by
  simp only [CyclicalWorker.runIteration]
  rw [if_neg hcap]
  refine ⟨fun hs => ?_, fun hs => ?_, rfl⟩
  · have hlt : nowStart + runDuration < w.last + w.interval := by
      simp only [slack] at hs
      omega
    show some (CyclicalWorker.GetRequiredWaitTime w.last w.interval
      (nowStart + runDuration)) = _
    rw [CyclicalWorker.GetRequiredWaitTime, if_pos hlt]
    simp only [slack, Option.some.injEq]
    omega
  · have hge : ¬ nowStart + runDuration < w.last + w.interval := by
      simp only [slack] at hs
      omega
    show some (CyclicalWorker.GetRequiredWaitTime w.last w.interval
      (nowStart + runDuration)) = _
    rw [CyclicalWorker.GetRequiredWaitTime, if_neg hge]

/-- C2 witness: the wait computation evaluated on the concrete worker with
last 10 and period 5 at an iteration starting at 12 and running for 1 tick,
so the clock reads 13 at the wait and the slack is 2. -/
theorem C2_required_wait_witness :
    (CyclicalWorker.runIteration workerSample 12 1 false).waited =
      some (slack workerSample.last workerSample.interval (12 + 1)).toNat ∧
    (CyclicalWorker.runIteration workerSample 12 1 false).state.last =
      workerSample.last + workerSample.interval := by
  have h := C2_required_wait workerSample 12 1 false (by decide)
  exact ⟨h.1 (by decide), h.2.2⟩

/-- C5: every iteration of the worker loop emits the duration-timeout
notification to the task exactly once, and its flag is exactly the
duration-timeout status the monitor reports for the sample recorded in that
iteration. -/
theorem C5_notify_every_iteration (w : WorkerState) (nowStart runDuration : Nat)
    (runError : Bool) :
    (CyclicalWorker.runIteration w nowStart runDuration runError).events.filter
        WorkerEvent.isNotify =
      [WorkerEvent.notifyTimeout
        ((CyclicalWorker.runIteration w nowStart runDuration
          runError).state.timeMonitor.IsDurationTimeout)] := by
  simp only [CyclicalWorker.runIteration]
  split_ifs <;>
    cases runError <;>
      simp [WorkerEvent.isNotify, List.filter]

/-- C6: a registration is refused, surfacing an error to the caller, when
the worker list already holds the configured maximum or when the requested
period is zero, and the list of previously registered workers is then left
unchanged. -/
theorem C6_attach_refused (s : SchedulerState) (period : Nat) (priority : Int)
    (duration : Nat)
    (h : s.workers.length = s.maxWorkers ∨ period = 0) :
    attachFailed (Scheduler.Attach s period priority duration) = true ∧
    (Scheduler.attachResultState s period priority duration).workers =
      s.workers := by
  unfold Scheduler.attachResultState Scheduler.Attach
  by_cases hm : s.maxWorkers ≤ s.workers.length
  · rw [if_pos hm]
    exact ⟨rfl, rfl⟩
  · rw [if_neg hm]
    have hp : period = 0 := by
      cases h with
      | inl h1 => exact absurd (Nat.le_of_eq h1.symm) hm
      | inr h2 => exact h2
    rw [if_pos hp]
    exact ⟨rfl, rfl⟩

/-- C6 witness: attaching a worker with period 7 to the concrete scheduler
that already holds its configured maximum of one worker is refused and
leaves the worker list unchanged. -/
theorem C6_attach_refused_witness :
    attachFailed (Scheduler.Attach schedulerFull 7 30 0) = true ∧
    (Scheduler.attachResultState schedulerFull 7 30 0).workers =
      schedulerFull.workers :=
  C6_attach_refused schedulerFull 7 30 0 (Or.inl (by decide))

/-- C7: ScheduleWork is idempotent: a second call leaves the state of the
first call unchanged; when the worker is already started the call is a
no-op, and otherwise it marks the worker started, stamps last with the
clock reading and spawns the worker thread with the configured priority. -/
theorem C7_schedule_work_idempotent (w : WorkerState) (now now2 : Nat) :
    CyclicalWorker.ScheduleWork (CyclicalWorker.ScheduleWork w now) now2 =
      CyclicalWorker.ScheduleWork w now ∧
    (w.started = true → CyclicalWorker.ScheduleWork w now = w) ∧
    (w.started = false →
      (CyclicalWorker.ScheduleWork w now).started = true ∧
      (CyclicalWorker.ScheduleWork w now).last = now ∧
      (CyclicalWorker.ScheduleWork w now).spawnedPriority =
        some w.threadPriority) := by
  by_cases hs : w.started = true
  · simp [CyclicalWorker.ScheduleWork, hs]
  · simp only [Bool.not_eq_true] at hs
    simp [CyclicalWorker.ScheduleWork, hs]

/-- C7 witness: idempotence and the activation effects evaluated on the
concrete not-yet-started worker activated at instant 3, and the no-op case
on the concrete already-started worker. -/
theorem C7_schedule_work_idempotent_witness :
    CyclicalWorker.ScheduleWork (CyclicalWorker.ScheduleWork workerSample 3) 9 =
      CyclicalWorker.ScheduleWork workerSample 3 ∧
    CyclicalWorker.ScheduleWork workerStarted 3 = workerStarted ∧
    (CyclicalWorker.ScheduleWork workerSample 3).started = true ∧
    (CyclicalWorker.ScheduleWork workerSample 3).last = 3 ∧
    (CyclicalWorker.ScheduleWork workerSample 3).spawnedPriority =
      some workerSample.threadPriority := by
  have h := C7_schedule_work_idempotent workerSample 3 9
  have h2 := C7_schedule_work_idempotent workerStarted 3 9
  exact ⟨h.1, h2.2.1 (by decide), (h.2.2 (by decide)).1, (h.2.2 (by decide)).2.1,
    (h.2.2 (by decide)).2.2⟩

/-- C8 counterexample: on the POSIX branch of Thread.hpp the default
scheduling-policy selector THREAD_SCHED_DEFAULT is defined as SCHED_RR, the
realtime round-robin policy, so it is not the non-realtime timeshare policy
on every platform. -/
theorem C8_default_policy_counterexample :
    THREAD_SCHED_DEFAULT_Posix ≠ THREAD_SCHED_NRT_TS_Posix := by
  decide

/-- C8 amended: on Win32 the default scheduling-policy selector is the
non-realtime timeshare policy, but on POSIX it is the realtime round-robin
policy. -/
theorem C8_default_policy_amended :
    THREAD_SCHED_DEFAULT_Win32 = THREAD_SCHED_NRT_TS_Win32 ∧
    THREAD_SCHED_DEFAULT_Posix = THREAD_SCHED_RT_RR_Posix :=
  ⟨rfl, rfl⟩

end Concurrency
